import Mathlib

/-!
# Weight-only-quantized int4 matmul on XPU: descriptor construction and submission

A shallow embedding of `aten/src/ATen/native/mkldnn/xpu/detail/WoQMatmul.cpp`
(`woq_matmul_int4`, lines 20-190).

The routine is host-side glue: it validates the destination, normalizes operand
layouts, builds oneDNN memory descriptors and memory handles, asks the engine
for a matmul plan, allocates the scratchpad and submits the primitive.  The
embedding keeps

* the tensors as metadata (`sizes`, `strides`, dtype, buffer identity),
* every C++ integer conversion (`int`, `uint64_t`, `int64_t`) as an explicit
  wrap-around on `Int`,
* the effects (contiguous copies, scratch allocation, queue submission) as an
  ordered trace, which is also reported when the call throws.

Collaborators that live outside the file (the stride acceptance test, the
dtype mapping, the engine's plan constructor, the fusion attribute) are
parameters of the model.  The inline helper `resize_as_onednn_mat1`
(lines 12-18) is not called by the routine and is not embedded.
-/

namespace WoQMatmul

/-! ## C++ integer conversions -/

/-- Two's-complement conversion to a signed integer of `bits` bits. -/
def wrap_signed (bits : Nat) (x : Int) : Int :=
  (x + 2 ^ (bits - 1)) % 2 ^ bits - 2 ^ (bits - 1)

/-- Conversion to C++ `int` (32 bits), as in `int k = m1.size(-1)`. -/
def to_int (x : Int) : Int := wrap_signed 32 x

/-- Conversion to `int64_t`, the element type of `dnnl::memory::dims`. -/
def to_int64 (x : Int) : Int := wrap_signed 64 x

/-- Conversion to `uint64_t`, as in `(uint64_t)(k / 8)`. -/
def to_uint64 (x : Int) : Int := x % 2 ^ 64

/-! ## Tensors -/

/-- Identity of a device buffer: one owned by the caller, or one allocated
during the call (numbered in allocation order). -/
inductive Buffer where
  | caller (id : Nat)
  | allocated (serial : Nat)
  deriving DecidableEq, Repr

/-- Element types of tensors that reach the routine. -/
inductive ScalarType where
  | Half | BFloat16 | Float | Int | Char | Byte
  deriving DecidableEq, Repr

/-- The `dnnl::memory::data_type` enumeration (the members the routine meets). -/
inductive data_type where
  | undef | f16 | bf16 | f32 | s32 | s8 | u8 | s4 | u4
  deriving DecidableEq, Repr

/-- The `dnnl::memory::format_tag` members for 2-D plain layouts. -/
inductive format_tag where
  | ab | ba
  deriving DecidableEq, Repr

/-- Tensor metadata: what `defined()`, `sizes()`, `strides()`, the dtype and
`data_ptr()` return. -/
structure Tensor where
  defined : Bool
  sizes : List Int
  strides : List Int
  dtype : ScalarType
  data_ptr : Buffer
  deriving DecidableEq, Repr

/-- What a call can throw. -/
inductive Error where
  /-- A failed `TORCH_CHECK`, with its message. -/
  | torch_check (msg : String)
  /-- An out-of-range dimension `d` given to `Tensor::size(d)` or `Tensor::stride(d)`. -/
  | index_error (d : Int) (rank : Nat)
  /-- Integer division by zero in `k / group_size` (undefined behaviour). -/
  | division_by_zero
  /-- A `dnnl::error` thrown while the plan is constructed. -/
  | dnnl_error (msg : String)
  /-- The message of `at::empty` for a negative size. -/
  | negative_dimension (n : Int)
  deriving DecidableEq, Repr

/-- Rank: `Tensor::dim()`. -/
def Tensor.dim (t : Tensor) : Nat := t.sizes.length

/-- Number of elements: `Tensor::numel()`. -/
def Tensor.numel (t : Tensor) : Int := t.sizes.prod

/-- Dimension wrapping of `Tensor::size(d)` / `Tensor::stride(d)`: `d` must lie in
`[-rank, rank - 1]`, negative values count from the end. -/
def maybe_wrap_dim (d : Int) (rank : Nat) : Except Error Nat :=
  if -(rank : Int) ≤ d ∧ d < rank then
    .ok (if d < 0 then d + rank else d).toNat
  else
    .error (.index_error d rank)

/-- The accessor `Tensor::size(d)`. -/
def Tensor.size (t : Tensor) (d : Int) : Except Error Int :=
  match maybe_wrap_dim d t.dim with
  | .ok i => .ok (t.sizes.getD i 0)
  | .error e => .error e

/-- The accessor `Tensor::stride(d)`. -/
def Tensor.stride (t : Tensor) (d : Int) : Except Error Int :=
  match maybe_wrap_dim d t.dim with
  | .ok i => .ok (t.strides.getD i 0)
  | .error e => .error e

/-- Row-major strides of a shape: the stride of a dimension is the product of
the later sizes (a size 0 counted as 1). -/
def contiguous_strides : List Int → List Int
  | [] => []
  | _ :: rest => (rest.map (fun s => max s 1)).prod :: contiguous_strides rest

/-- The contiguity scan, innermost dimension first, over `(size, stride)` pairs:
dimensions of size 1 are skipped, the others must have the running stride. -/
def is_contiguous_from (z : Int) : List (Int × Int) → Bool
  | [] => true
  | (sz, st) :: rest =>
    if sz = 1 then is_contiguous_from z rest
    else if st = z then is_contiguous_from (z * sz) rest
    else false

/-- The test `Tensor::is_contiguous()`. -/
def Tensor.is_contiguous (t : Tensor) : Bool :=
  t.numel = 0 || is_contiguous_from 1 (t.sizes.zip t.strides).reverse

/-! ## oneDNN objects -/

/-- A `dnnl::memory::desc` given by dimensions, element type and strides.  The
library's own validation of dimensions and strides is not part of the model: a
descriptor is recorded as the routine requests it. -/
structure memory_desc where
  dims : List Int
  dtype : data_type
  strides : List Int
  deriving DecidableEq, Repr

/-- Strides that a plain 2-D format tag stands for: `ab` is row-major, `ba` has
dimension 0 as the contiguous axis. -/
def tag_strides (dims : List Int) : format_tag → List Int
  | .ab => [dims.getD 1 0, 1]
  | .ba => [1, dims.getD 0 0]

/-- The `dnnl::memory::desc(dims, data_type, format_tag)` constructor. -/
def memory_desc.of_tag (dims : List Int) (dt : data_type) (tag : format_tag) : memory_desc :=
  ⟨dims, dt, tag_strides dims tag⟩

/-- A `dnnl::memory`: a descriptor bound to a buffer (`get_data_handle()`). -/
structure memory where
  desc : memory_desc
  handle : Buffer
  deriving DecidableEq, Repr

/-- The helper `make_onednn_memory(md, engine, ptr)`. -/
def make_onednn_memory (md : memory_desc) (ptr : Buffer) : memory := ⟨md, ptr⟩

/-- Roles under which memories are handed to the primitive (`DNNL_ARG_*`). -/
inductive Arg where
  | SRC | WEIGHTS | DST | SCRATCHPAD
  | ATTR_SCALES_WEIGHTS
  | ATTR_ZERO_POINTS_WEIGHTS
  | POST_OP_SRC_1 (idx : Nat)
  deriving DecidableEq, Repr

/-- The part of `dnnl::primitive_attr` that the routine sets. -/
structure primitive_attr where
  post_ops : List Nat
  scratchpad_mode_user : Bool
  scales_mask : Nat
  scales_groups : List Int
  scales_data_type : data_type
  zero_points_mask : Nat
  zero_points_groups : List Int
  zero_points_data_type : data_type
  fpmath_bf16_apply_to_int : Bool
  deriving DecidableEq, Repr

/-- Arguments of `dnnl::matmul::primitive_desc(engine, src, weights, dst, attr)`. -/
structure matmul_problem where
  src_md : memory_desc
  weights_md : memory_desc
  dst_md : memory_desc
  attr : primitive_attr
  deriving DecidableEq, Repr

/-- A constructed plan; `scratchpad_size` is `scratchpad_desc().get_size()`,
a `size_t`. -/
structure primitive_desc where
  problem : matmul_problem
  scratchpad_size : Nat
  deriving DecidableEq, Repr

/-- The descriptor `matmul_pd.scratchpad_desc()`: a byte blob of the reported size. -/
def primitive_desc.scratchpad_desc (pd : primitive_desc) : memory_desc :=
  ⟨[(pd.scratchpad_size : Int)], .u8, [1]⟩

/-- A `sycl::event`. -/
structure sycl_event where
  id : Nat
  deriving DecidableEq, Repr

/-- The fusion attribute `Attr`, seen through the three operations the routine
calls: `extract_post_ops`, `with_binary`, and `construct_post_binary`, which
binds one memory per binary post-op. -/
structure Attr where
  extract_post_ops : Tensor → List Nat
  with_binary : Bool
  binary_memories : List memory

/-- Collaborators outside the file. -/
structure Env where
  /-- The acceptance test `is_onednn_matmul_strides(tensor, is_dst)`. -/
  is_onednn_matmul_strides : Tensor → Bool → Bool
  /-- The mapping `get_onednn_dtype(tensor)`. -/
  get_onednn_dtype : Tensor → data_type
  /-- The engine's plan constructor: the reported scratchpad size, or the
  message of the `dnnl::error` it throws. -/
  create_primitive_desc : matmul_problem → Except String Nat

/-! ## Effects -/

/-- Effects of a call, in program order. -/
inductive Event where
  /-- A call of `Tensor::contiguous()` that allocated `dst` and copied `src` into it. -/
  | contiguous_copy (src dst : Buffer)
  /-- The `at::empty` call `{n}` of bytes for the scratchpad. -/
  | empty (n : Int) (buf : Buffer)
  /-- The submission `dnnl::sycl_interop::execute(matmul_p, stream, args, deps)`. -/
  | execute (args : List (Arg × memory)) (deps : List sycl_event)
  deriving DecidableEq, Repr

/-- Allocation state: the serial of the next buffer and the trace so far. -/
structure Heap where
  next : Nat
  trace : List Event
  deriving DecidableEq, Repr

/-- The method `Tensor::contiguous()`: the tensor itself when it is contiguous,
otherwise a row-major copy in a newly allocated buffer. -/
def Tensor.contiguous (t : Tensor) (h : Heap) : Tensor × Heap :=
  if t.is_contiguous then (t, h)
  else
    ({ t with strides := contiguous_strides t.sizes, data_ptr := .allocated h.next },
     ⟨h.next + 1, h.trace ++ [.contiguous_copy t.data_ptr (.allocated h.next)]⟩)

/-- The expression `is_onednn_matmul_strides(t, is_dst) ? t : t.contiguous()`. -/
def normalize (env : Env) (t : Tensor) (is_dst : Bool) (h : Heap) : Tensor × Heap :=
  if env.is_onednn_matmul_strides t is_dst then (t, h) else t.contiguous h

/-- The method `std::unordered_map::insert`: an existing key keeps its value. -/
def args_insert (args : List (Arg × memory)) (key : Arg) (m : memory) : List (Arg × memory) :=
  match args.lookup key with
  | some _ => args
  | none => args ++ [(key, m)]

/-- The method `Attr::construct_post_binary`: binds the `i`-th binary operand. -/
def construct_post_binary (mems : List memory) (start : Nat) (args : List (Arg × memory)) :
    List (Arg × memory) :=
  match mems with
  | [] => args
  | m :: rest => construct_post_binary rest (start + 1) (args_insert args (.POST_OP_SRC_1 start) m)

/-- A call that threw: the error and the effects that had already happened. -/
structure Failure where
  error : Error
  trace : List Event
  deriving DecidableEq, Repr

/-- The locals of `woq_matmul_int4` when it returns, and the trace of the call. -/
structure Out where
  m1 : Tensor
  m2 : Tensor
  scale_ : Tensor
  zp_ : Tensor
  dst : Tensor
  m : Int
  n : Int
  k : Int
  m1_usr_md : memory_desc
  m2_usr_md : memory_desc
  scale_usr_md : memory_desc
  zp_usr_md : memory_desc
  dst_usr_md : memory_desc
  m1_md : memory_desc
  m2_md : memory_desc
  scale_md : memory_desc
  zp_md : memory_desc
  dst_md : memory_desc
  m1_usr_m : memory
  m2_usr_m : memory
  scale_usr_m : memory
  zp_usr_m : memory
  dst_usr_m : memory
  m2_u4_m : memory
  matmul_pd : primitive_desc
  scratchpad_size : Int
  scratchpad_tensor : Tensor
  scratchpad_memory : memory
  args : List (Arg × memory)
  trace : List Event
  deriving DecidableEq, Repr

/-! ## Sample collaborators

Concrete instances of the parameters, used to run the routine on explicit inputs. -/

/-- A sample acceptance test in the shape of `is_onednn_matmul_strides`: the rank
is 2 or 3, and the tensor is contiguous or has a unit stride on the last axis
(for a destination) or on one of the last two axes (for the other operands). -/
def sample_strides_ok (t : Tensor) (is_dst : Bool) : Bool :=
  (t.dim = 2 || t.dim = 3) &&
    (t.is_contiguous ||
      (if is_dst then t.strides.getLast? = some 1
       else t.strides.getLast? = some 1 || t.strides.dropLast.getLast? = some 1))

/-- A sample dtype mapping. -/
def sample_dtype (t : Tensor) : data_type :=
  match t.dtype with
  | .Half => .f16
  | .BFloat16 => .bf16
  | .Float => .f32
  | .Int => .s32
  | .Char => .s8
  | .Byte => .u8

/-- The reduction size and the weight-scale group size of a problem, as the
engine sees them: `K` is dimension 1 of the source, `G` the first group extent. -/
def matmul_problem.K (p : matmul_problem) : Int := p.src_md.dims.getD 1 0

/-- The weight-scale group size of a problem (first group extent). -/
def matmul_problem.G (p : matmul_problem) : Int := p.attr.scales_groups.getD 0 0

/-- A sample engine that refuses a group size that does not divide `K` and
otherwise reports a scratchpad of `size` bytes. -/
def sample_engine (size : Nat) (p : matmul_problem) : Except String Nat :=
  if p.K % p.G = 0 then .ok size else .error "unsupported scales group"

/-- The sample environment with a checking engine. -/
def sample_env (size : Nat) : Env := ⟨sample_strides_ok, sample_dtype, sample_engine size⟩

/-- A fusion attribute without post-ops. -/
def no_attr : Attr := ⟨fun _ => [], false, []⟩

/-- A contiguous 2-D tensor of `r` rows and `c` columns in the caller's buffer `id`. -/
def tensor2 (r c : Int) (dt : ScalarType) (id : Nat) : Tensor :=
  ⟨true, [r, c], [c, 1], dt, .caller id⟩

/-! ## The routine -/

/-- The routine `woq_matmul_int4` (lines 20-190).  The engine, the stream and the
device index (lines 36-39) carry no data the descriptors depend on and are left
out; everything else follows the source statement by statement. -/
def woq_matmul_int4 (env : Env) (result mat1_ mat2_ scale zp : Tensor) (group_size : Int)
    (attr : Attr) (deps : List sycl_event) : Except Failure Out :=
  -- lines 29-34
  let dims := result.dim
  if ¬ (dims = 2 ∨ dims = 3) then
    .error ⟨.torch_check ("oneDNN matmul only works with 2D or 3D, got " ++ toString dims), []⟩
  else if result.defined = false then
    .error ⟨.torch_check "oneDNN matmul result should be defined", []⟩
  else
  -- lines 42-48: make them all contiguous
  let r1 := normalize env mat1_ false ⟨0, []⟩
  let m1 := r1.1
  let r2 := normalize env mat2_ false r1.2
  let m2 := r2.1
  let r3 := normalize env scale false r2.2
  let scale_ := r3.1
  let r4 := normalize env zp false r3.2
  let zp_ := r4.1
  let r5 := normalize env result true r4.2
  let dst := r5.1
  let h := r5.2
  -- lines 49-51
  match m1.size (-2) with
  | .error e => .error ⟨e, h.trace⟩
  | .ok m_ =>
  let m := to_int m_
  match dst.size (-1) with
  | .error e => .error ⟨e, h.trace⟩
  | .ok n_ =>
  let n := to_int n_
  match m1.size (-1) with
  | .error e => .error ⟨e, h.trace⟩
  | .ok k_ =>
  let k := to_int k_
  -- lines 56-61
  let m1_usr_dt := env.get_onednn_dtype m1
  let m2_usr_dt := env.get_onednn_dtype m2
  let scale_usr_dt := env.get_onednn_dtype scale_
  let zp_usr_dt := env.get_onednn_dtype zp_
  let dst_usr_dt := env.get_onednn_dtype dst
  -- lines 65-66
  let compressed_k := to_uint64 (Int.tdiv k 8)
  if group_size = 0 then .error ⟨.division_by_zero, h.trace⟩ else
  let num_groups := to_uint64 (Int.tdiv k group_size)
  -- lines 68-77
  let m1_usr_dims := [m, k]
  match m1.stride 0 with
  | .error e => .error ⟨e, h.trace⟩
  | .ok m1_stride0 =>
  match m1.stride 1 with
  | .error e => .error ⟨e, h.trace⟩
  | .ok m1_stride1 =>
  let m1_usr_strides := [m1_stride0, m1_stride1]
  let m2_usr_dims := [to_int64 compressed_k, n]
  let m2_usr_strides := [1, to_int64 compressed_k]
  let scale_usr_dims := [to_int64 num_groups, n]
  match scale_.stride 1 with
  | .error e => .error ⟨e, h.trace⟩
  | .ok scale_stride1 =>
  match scale_.stride 0 with
  | .error e => .error ⟨e, h.trace⟩
  | .ok scale_stride0 =>
  let scale_usr_strides := [scale_stride1, scale_stride0]
  let zp_usr_dims := [1]
  let zp_usr_strides := [1]
  let dst_usr_dims := [m, n]
  match dst.stride 0 with
  | .error e => .error ⟨e, h.trace⟩
  | .ok dst_stride0 =>
  match dst.stride 1 with
  | .error e => .error ⟨e, h.trace⟩
  | .ok dst_stride1 =>
  let dst_usr_strides := [dst_stride0, dst_stride1]
  -- lines 81-85
  let m1_usr_md : memory_desc := ⟨m1_usr_dims, m1_usr_dt, m1_usr_strides⟩
  let m2_usr_md : memory_desc := ⟨m2_usr_dims, m2_usr_dt, m2_usr_strides⟩
  let scale_usr_md : memory_desc := ⟨scale_usr_dims, scale_usr_dt, scale_usr_strides⟩
  let zp_usr_md : memory_desc := ⟨zp_usr_dims, zp_usr_dt, zp_usr_strides⟩
  let dst_usr_md : memory_desc := ⟨dst_usr_dims, dst_usr_dt, dst_usr_strides⟩
  -- lines 88-90: create usr memory
  let dst_usr_m := make_onednn_memory dst_usr_md dst.data_ptr
  let scale_usr_m := make_onednn_memory scale_usr_md scale.data_ptr
  let zp_usr_m := make_onednn_memory zp_usr_md zp.data_ptr
  -- lines 95-103
  let m1_dt := m1_usr_dt
  let m2_dt := data_type.u4
  let scale_dt := scale_usr_dt
  let zp_dt := data_type.u4
  let dst_dt := dst_usr_dt
  -- lines 109-119
  let m1_dims := m1_usr_dims
  let m1_strides := m1_usr_strides
  let m2_dims := [k, n]
  let m2_strides := [n, 1]
  let scale_dims := scale_usr_dims
  let scale_strides := scale_usr_strides
  let zp_dims := [1]
  let zp_strides := [1]
  let dst_dims := dst_usr_dims
  let dst_strides := dst_usr_strides
  -- lines 121-125
  let m1_md : memory_desc := ⟨m1_dims, m1_dt, m1_strides⟩
  let m2_md : memory_desc := ⟨m2_dims, m2_dt, m2_strides⟩
  let scale_md : memory_desc := ⟨scale_dims, scale_dt, scale_strides⟩
  let zp_md : memory_desc := ⟨zp_dims, zp_dt, zp_strides⟩
  let dst_md : memory_desc := ⟨dst_dims, dst_dt, dst_strides⟩
  -- lines 127-128
  let args0 : List (Arg × memory) := []
  let po := attr.extract_post_ops dst
  -- lines 133-141
  let m1_usr_m := make_onednn_memory m1_usr_md m1.data_ptr
  let m2_usr_m := make_onednn_memory m2_usr_md m2.data_ptr
  let handle_b := m2_usr_m.handle
  let m2_u4_m : memory := ⟨memory_desc.of_tag [k, n] .u4 .ba, handle_b⟩
  -- lines 143-161
  let pattr : primitive_attr :=
    ⟨po, true, (1 <<< 0) + (1 <<< 1), [group_size, 1], scale_dt, 0, [], .s8, true⟩
  -- lines 163-165
  match env.create_primitive_desc ⟨m1_md, m2_u4_m.desc, dst_md, pattr⟩ with
  | .error msg => .error ⟨.dnnl_error msg, h.trace⟩
  | .ok size =>
  let matmul_pd : primitive_desc := ⟨⟨m1_md, m2_u4_m.desc, dst_md, pattr⟩, size⟩
  -- lines 167-168
  let m1_m := m1_usr_m
  let dst_m := dst_usr_m
  let scale_m := scale_usr_m
  -- lines 172-177
  let scratchpad_size := to_int (matmul_pd.scratchpad_size : Int)
  if scratchpad_size < 0 then .error ⟨.negative_dimension scratchpad_size, h.trace⟩ else
  let scratchpad_tensor : Tensor :=
    ⟨true, [scratchpad_size], [1], .Byte, .allocated h.next⟩
  let trace1 := h.trace ++ [.empty scratchpad_size (.allocated h.next)]
  let scratchpad_memory :=
    make_onednn_memory matmul_pd.scratchpad_desc scratchpad_tensor.data_ptr
  let args1 := args_insert args0 .SCRATCHPAD scratchpad_memory
  -- lines 179-180
  let args2 := if attr.with_binary then construct_post_binary attr.binary_memories 0 args1 else args1
  -- lines 182-186
  let args3 := args_insert args2 .SRC m1_m
  let args4 := args_insert args3 .WEIGHTS m2_u4_m
  let args5 := args_insert args4 .DST dst_m
  let args6 := args_insert args5 .ATTR_SCALES_WEIGHTS scale_m
  let args7 := args_insert args6 .ATTR_ZERO_POINTS_WEIGHTS zp_usr_m
  -- lines 188-189
  .ok
    { m1 := m1, m2 := m2, scale_ := scale_, zp_ := zp_, dst := dst,
      m := m, n := n, k := k,
      m1_usr_md := m1_usr_md, m2_usr_md := m2_usr_md, scale_usr_md := scale_usr_md,
      zp_usr_md := zp_usr_md, dst_usr_md := dst_usr_md,
      m1_md := m1_md, m2_md := m2_md, scale_md := scale_md, zp_md := zp_md, dst_md := dst_md,
      m1_usr_m := m1_usr_m, m2_usr_m := m2_usr_m, scale_usr_m := scale_usr_m,
      zp_usr_m := zp_usr_m, dst_usr_m := dst_usr_m, m2_u4_m := m2_u4_m,
      matmul_pd := matmul_pd, scratchpad_size := scratchpad_size,
      scratchpad_tensor := scratchpad_tensor, scratchpad_memory := scratchpad_memory,
      args := args7, trace := trace1 ++ [.execute args7 deps] }

/-! ## Descriptor geometry, trace predicates and the inputs of the evaluations -/

/-- A 1-D destination of 4 elements. -/
def dst_1d : Tensor := ⟨true, [4], [1], .BFloat16, .caller 0⟩

/-- A 4-D destination. -/
def dst_4d : Tensor := ⟨true, [1, 1, 2, 4], [8, 8, 4, 1], .BFloat16, .caller 0⟩

/-- The concrete scenario of the specification, `M = 1`, `K = 16`, `N = 1`,
`G = 8`: the call, with contiguous operands in the caller's buffers 0 to 4. -/
def scenario : Except Failure Out :=
  woq_matmul_int4 (sample_env 64) (tensor2 1 1 .BFloat16 0) (tensor2 1 16 .BFloat16 1)
    (tensor2 2 1 .Int 2) (tensor2 2 1 .BFloat16 3) (tensor2 1 1 .Char 4) 8 no_attr []

/-- Width of an element type in bits. -/
def data_type.bits : data_type → Int
  | .undef => 0
  | .f16 => 16
  | .bf16 => 16
  | .f32 => 32
  | .s32 => 32
  | .s8 => 8
  | .u8 => 8
  | .s4 => 4
  | .u4 => 4

/-- A contiguous 3-D destination of shape `(1, 4, 3)` (a batch of one). -/
def dst_3d : Tensor := ⟨true, [1, 4, 3], [12, 3, 1], .BFloat16, .caller 0⟩

/-- A scale of shape `(2, 4)` read with strides `(16, 2)`. -/
def strided_scale : Tensor := ⟨true, [2, 4], [16, 2], .BFloat16, .caller 3⟩

/-- A zero-point of shape `(2, 4)` read with strides `(16, 2)`. -/
def strided_zp : Tensor := ⟨true, [2, 4], [16, 2], .Char, .caller 4⟩

/-- A destination of shape `(2, 4)` stored column-major (strides `(1, 2)`). -/
def transposed_dst : Tensor := ⟨true, [2, 4], [1, 2], .BFloat16, .caller 0⟩

/-- A contiguous activation of one row and `2 ^ 32 + 16` columns. -/
def wide_activation : Tensor :=
  ⟨true, [1, 2 ^ 32 + 16], [2 ^ 32 + 16, 1], .BFloat16, .caller 1⟩

/-- A call with `M = 1`, `K = 2 ^ 32 + 16`, `N = 3`, `G = 8`: the packed weight and
the scale have `K / 8 = K / G = 2 ^ 29 + 2` rows, all operands are contiguous. -/
def wide_call : Except Failure Out :=
  woq_matmul_int4 (sample_env 64) (tensor2 1 3 .BFloat16 0) wide_activation
    (tensor2 (2 ^ 29 + 2) 3 .Int 2) (tensor2 (2 ^ 29 + 2) 3 .BFloat16 3)
    (tensor2 1 1 .Char 4) 8 no_attr []

/-- A value in `[0, 2 ^ 31)` is unchanged by the conversion to `int`. -/
theorem to_int_of_range {x : Int} (h0 : 0 ≤ x) (h1 : x < 2 ^ 31) : to_int x = x := by
  unfold to_int wrap_signed
  norm_num at h1 ⊢
  omega

/-- A value in `[0, 2 ^ 31)` is unchanged by the conversion to `uint64_t`. -/
theorem to_uint64_of_range {x : Int} (h0 : 0 ≤ x) (h1 : x < 2 ^ 31) : to_uint64 x = x := by
  unfold to_uint64
  norm_num at h1 ⊢
  omega

/-- A value in `[0, 2 ^ 31)` is unchanged by the conversion to `int64_t`. -/
theorem to_int64_of_range {x : Int} (h0 : 0 ≤ x) (h1 : x < 2 ^ 31) : to_int64 x = x := by
  unfold to_int64 wrap_signed
  norm_num at h1 ⊢
  omega

/-- The conversion chain of `compressed_k` and `num_groups`: a quotient of an
in-range `k` by a positive divisor passes through `uint64_t` and `int64_t` unchanged. -/
theorem quotient_conversions {k g : Int} (h0 : 0 ≤ k) (h1 : k < 2 ^ 31) (hg : 0 < g) :
    to_int64 (to_uint64 (Int.tdiv k g)) = k / g := by
  have hq : Int.tdiv k g = k / g := Int.tdiv_eq_ediv h0 (le_of_lt hg)
  have hq0 : 0 ≤ k / g := Int.ediv_nonneg h0 (le_of_lt hg)
  have hq1 : k / g < 2 ^ 31 := lt_of_le_of_lt (Int.ediv_le_self g h0) h1
  rw [hq, to_uint64_of_range hq0 hq1, to_int64_of_range hq0 hq1]

/-! ## Layout normalization keeps the shape -/

/-- The method `contiguous()` keeps the shape. -/
theorem contiguous_sizes (t : Tensor) (h : Heap) : (t.contiguous h).1.sizes = t.sizes := by
  unfold Tensor.contiguous
  split <;> rfl

/-- Normalization keeps the shape. -/
theorem normalize_sizes (env : Env) (t : Tensor) (b : Bool) (h : Heap) :
    (normalize env t b h).1.sizes = t.sizes := by
  unfold normalize
  split
  · rfl
  · exact contiguous_sizes t h

/-- Normalization keeps every `size(d)`, errors included. -/
theorem normalize_size (env : Env) (t : Tensor) (b : Bool) (h : Heap) (d : Int) :
    (normalize env t b h).1.size d = t.size d := by
  unfold Tensor.size Tensor.dim
  rw [normalize_sizes]

/-- The normalized operand keeps the caller's strides or has row-major ones. -/
theorem normalize_strides (env : Env) (t : Tensor) (b : Bool) (h : Heap) :
    (normalize env t b h).1.strides = t.strides ∨
      (normalize env t b h).1.strides = contiguous_strides t.sizes := by
  unfold normalize Tensor.contiguous
  split
  · exact Or.inl rfl
  · split
    · exact Or.inl rfl
    · exact Or.inr rfl

/-- Inserting under one role leaves the other roles as they were. -/
theorem lookup_args_insert_ne (args : List (Arg × memory)) (key key2 : Arg) (m : memory)
    (hne : key2 ≠ key) : (args_insert args key m).lookup key2 = args.lookup key2 := by
  unfold args_insert
  split
  · rfl
  · rw [List.lookup_append]
    have : (key2 == key) = false := by simpa using hne
    simp [List.lookup_cons, this]

/-- Inserting under a free role binds it. -/
theorem lookup_args_insert_self (args : List (Arg × memory)) (key : Arg) (m : memory)
    (hnone : args.lookup key = none) : (args_insert args key m).lookup key = some m := by
  unfold args_insert
  rw [hnone]
  simp [List.lookup_append, hnone]

/-- Binding the binary post-op operands touches only the post-op roles. -/
theorem lookup_construct_post_binary (mems : List memory) (start : Nat)
    (args : List (Arg × memory)) (key : Arg) (hkey : ∀ i, key ≠ .POST_OP_SRC_1 i) :
    (construct_post_binary mems start args).lookup key = args.lookup key := by
  induction mems generalizing start args with
  | nil => rfl
  | cons m rest ih =>
    unfold construct_post_binary
    rw [ih, lookup_args_insert_ne _ _ _ _ (hkey start)]

/-! ## What a returning call has computed -/

/-- Inversion of a returning call: the checks passed, and the locals are the
values the source assigns to them. -/
theorem woq_matmul_int4_ok_inv {env : Env} {result mat1_ mat2_ scale zp : Tensor}
    {group_size : Int} {attr : Attr} {deps : List sycl_event} {out : Out}
    (h : woq_matmul_int4 env result mat1_ mat2_ scale zp group_size attr deps = .ok out) :
    (result.dim = 2 ∨ result.dim = 3) ∧ group_size ≠ 0 ∧
    (∃ hp, out.m1 = (normalize env mat1_ false hp).1) ∧
    (∃ hp, out.m2 = (normalize env mat2_ false hp).1) ∧
    (∃ hp, out.scale_ = (normalize env scale false hp).1) ∧
    (∃ hp, out.zp_ = (normalize env zp false hp).1) ∧
    (∃ hp, out.dst = (normalize env result true hp).1) ∧
    (∃ m_, out.m1.size (-2) = .ok m_ ∧ out.m = to_int m_) ∧
    (∃ n_, out.dst.size (-1) = .ok n_ ∧ out.n = to_int n_) ∧
    (∃ k_, out.m1.size (-1) = .ok k_ ∧ out.k = to_int k_) ∧
    out.m2_usr_md =
      ⟨[to_int64 (to_uint64 (Int.tdiv out.k 8)), out.n], env.get_onednn_dtype out.m2,
        [1, to_int64 (to_uint64 (Int.tdiv out.k 8))]⟩ ∧
    (∃ s1 s0, out.scale_.stride 1 = .ok s1 ∧ out.scale_.stride 0 = .ok s0 ∧
      out.scale_usr_md =
        ⟨[to_int64 (to_uint64 (Int.tdiv out.k group_size)), out.n],
          env.get_onednn_dtype out.scale_, [s1, s0]⟩) ∧
    (∃ d0 d1, out.dst.stride 0 = .ok d0 ∧ out.dst.stride 1 = .ok d1 ∧
      out.dst_usr_md = ⟨[out.m, out.n], env.get_onednn_dtype out.dst, [d0, d1]⟩) ∧
    out.dst_md = out.dst_usr_md ∧
    out.m2_usr_m = ⟨out.m2_usr_md, out.m2.data_ptr⟩ ∧
    out.m2_u4_m = ⟨memory_desc.of_tag [out.k, out.n] .u4 .ba, out.m2_usr_m.handle⟩ ∧
    out.matmul_pd.problem.weights_md = out.m2_u4_m.desc ∧
    env.create_primitive_desc out.matmul_pd.problem = .ok out.matmul_pd.scratchpad_size ∧
    out.args.lookup .WEIGHTS = some out.m2_u4_m ∧
    (∃ pre, out.trace = pre ++ [.execute out.args deps]) := by
  simp only [woq_matmul_int4] at h
  repeat' split at h
  all_goals first | (cases h; done) | skip
  all_goals
    cases h
    refine ⟨by tauto, by assumption, ⟨_, rfl⟩, ⟨_, rfl⟩, ⟨_, rfl⟩, ⟨_, rfl⟩, ⟨_, rfl⟩,
      ⟨_, by assumption, rfl⟩, ⟨_, by assumption, rfl⟩, ⟨_, by assumption, rfl⟩, rfl,
      ⟨_, _, by assumption, by assumption, rfl⟩, ⟨_, _, by assumption, by assumption, rfl⟩,
      rfl, rfl, rfl, rfl, by assumption, ?_, ⟨_, rfl⟩⟩
    simp only []
    rw [lookup_args_insert_ne _ _ _ _ (by decide), lookup_args_insert_ne _ _ _ _ (by decide),
      lookup_args_insert_ne _ _ _ _ (by decide)]
    apply lookup_args_insert_self
    rw [lookup_args_insert_ne _ _ _ _ (by decide)]
    first
      | rw [lookup_construct_post_binary _ _ _ _ (by intro i; exact Arg.noConfusion),
          lookup_args_insert_ne _ _ _ _ (by decide)]; rfl
      | (rw [lookup_args_insert_ne _ _ _ _ (by decide)]; rfl)

/-! ## Destination rank check -/

/-- C1: when the destination's rank is neither 2 nor 3, the call throws the
dimensionality error of the first check, whatever the other arguments are, and
the trace of the failed call is empty: no contiguous copy was made, no scratch
buffer was allocated and nothing was submitted (and, the call having thrown at
its first statement, no descriptor exists). -/
theorem woq_matmul_int4_rejects_rank (env : Env) (result mat1_ mat2_ scale zp : Tensor)
    (group_size : Int) (attr : Attr) (deps : List sycl_event)
    (h : result.dim ≠ 2 ∧ result.dim ≠ 3) :
    woq_matmul_int4 env result mat1_ mat2_ scale zp group_size attr deps =
      .error ⟨.torch_check
        ("oneDNN matmul only works with 2D or 3D, got " ++ toString result.dim), []⟩ := by
  have hd : ¬ (result.dim = 2 ∨ result.dim = 3) := by
    rintro (h2 | h3)
    · exact h.1 h2
    · exact h.2 h3
  unfold woq_matmul_int4
  simp only [hd, not_false_eq_true, if_true]

/-- Witness for C1: a 1-D and a 4-D destination, with otherwise valid operands. -/
theorem woq_matmul_int4_rejects_rank_witness :
    ((dst_1d.dim ≠ 2 ∧ dst_1d.dim ≠ 3) ∧
      woq_matmul_int4 (sample_env 64) dst_1d (tensor2 1 16 .BFloat16 1) (tensor2 2 4 .Int 2)
          (tensor2 2 4 .BFloat16 3) (tensor2 1 1 .Char 4) 8 no_attr [] =
        .error ⟨.torch_check
          ("oneDNN matmul only works with 2D or 3D, got " ++ toString dst_1d.dim), []⟩) ∧
    ((dst_4d.dim ≠ 2 ∧ dst_4d.dim ≠ 3) ∧
      woq_matmul_int4 (sample_env 64) dst_4d (tensor2 2 16 .BFloat16 1) (tensor2 2 4 .Int 2)
          (tensor2 2 4 .BFloat16 3) (tensor2 1 1 .Char 4) 8 no_attr [] =
        .error ⟨.torch_check
          ("oneDNN matmul only works with 2D or 3D, got " ++ toString dst_4d.dim), []⟩) :=
  ⟨⟨by decide, woq_matmul_int4_rejects_rank _ _ _ _ _ _ _ _ _ (by decide)⟩,
   ⟨by decide, woq_matmul_int4_rejects_rank _ _ _ _ _ _ _ _ _ (by decide)⟩⟩

/-! ## Group size that does not divide the reduction size -/

/-- In a returning call whose activation has last dimension `K` and whose
destination has last dimension `N`, both representable as `int`, the locals `k`
and `n` are `K` and `N`. -/
theorem woq_matmul_int4_k_n {env : Env} {result mat1_ mat2_ scale zp : Tensor}
    {group_size : Int} {attr : Attr} {deps : List sycl_event} {out : Out} {K N : Int}
    (h : woq_matmul_int4 env result mat1_ mat2_ scale zp group_size attr deps = .ok out)
    (hK : mat1_.size (-1) = .ok K) (hN : result.size (-1) = .ok N)
    (hK0 : 0 ≤ K) (hK1 : K < 2 ^ 31) (hN0 : 0 ≤ N) (hN1 : N < 2 ^ 31) :
    out.k = K ∧ out.n = N := by
  obtain ⟨-, -, ⟨hp1, hm1⟩, -, -, -, ⟨hp5, hdst⟩, -, ⟨n_, hn_, hn⟩, ⟨k_, hk_, hk⟩, -⟩ :=
    woq_matmul_int4_ok_inv h
  rw [hm1, normalize_size, hK] at hk_
  rw [hdst, normalize_size, hN] at hn_
  cases hk_
  cases hn_
  rw [hk, hn, to_int_of_range hK0 hK1, to_int_of_range hN0 hN1]
  exact ⟨rfl, rfl⟩

/-! ## Packed weight: user descriptor -/

/-- Packed-weight user descriptor within the range of `int`: in every returning
call with reduction size `K` (last dimension of the activation) and output
width `N` (last dimension of the destination), both in the range of `int`, the
type of the locals `k` and `n`, the descriptor has dimensions `(K / 8, N)` and
strides `(1, K / 8)`, whatever weight tensor (and so whatever weight strides)
was passed. -/
theorem packed_weight_user_desc (env : Env) (result mat1_ mat2_ scale zp : Tensor)
    (group_size : Int) (attr : Attr) (deps : List sycl_event) (out : Out) (K N : Int)
    (h : woq_matmul_int4 env result mat1_ mat2_ scale zp group_size attr deps = .ok out)
    (hK : mat1_.size (-1) = .ok K) (hN : result.size (-1) = .ok N)
    (hK0 : 0 ≤ K) (hK1 : K < 2 ^ 31) (hN0 : 0 ≤ N) (hN1 : N < 2 ^ 31) :
    out.m2_usr_md.dims = [K / 8, N] ∧ out.m2_usr_md.strides = [1, K / 8] := by
  obtain ⟨hk, hn⟩ := woq_matmul_int4_k_n h hK hN hK0 hK1 hN0 hN1
  obtain ⟨-, -, -, -, -, -, -, -, -, -, hmd, -⟩ := woq_matmul_int4_ok_inv h
  rw [hmd, hk, hn, quotient_conversions hK0 hK1 (by decide)]
  exact ⟨rfl, rfl⟩

/-- The in-range statement at the scenario `K = 16`, `N = 1`: dimensions `(2, 1)` and
strides `(1, 2)`. -/
theorem packed_weight_user_desc_witness :
    ∃ out, scenario = .ok out ∧
      out.m2_usr_md.dims = [2, 1] ∧ out.m2_usr_md.strides = [1, 2] := by
  obtain ⟨out, hout⟩ : ∃ out, scenario = .ok out := ⟨_, rfl⟩
  exact ⟨out, hout, packed_weight_user_desc (sample_env 64) (tensor2 1 1 .BFloat16 0)
    (tensor2 1 16 .BFloat16 1) (tensor2 2 1 .Int 2) (tensor2 2 1 .BFloat16 3)
    (tensor2 1 1 .Char 4) 8 no_attr [] out 16 1 hout
    (by rfl) (by rfl) (by decide) (by decide) (by decide) (by decide)⟩

/-! ## Scale: user descriptor -/

/-- Scale user descriptor within the range of `int`: in every returning call with
reduction size `K`, output width `N` (both in the range of `int`, the type of
the locals `k` and `n`) and positive group size `G`, the scale user descriptor
has dimensions `(K / G, N)` and strides
`(s1, s0)`, where `s0` and `s1` are the strides of dimensions 0 and 1 of the
normalized scale tensor `scale_`; when `G` divides `K`, the leading dimension
times `G` is `K`. -/
theorem scale_user_desc (env : Env) (result mat1_ mat2_ scale zp : Tensor)
    (group_size : Int) (attr : Attr) (deps : List sycl_event) (out : Out) (K N : Int)
    (h : woq_matmul_int4 env result mat1_ mat2_ scale zp group_size attr deps = .ok out)
    (hK : mat1_.size (-1) = .ok K) (hN : result.size (-1) = .ok N)
    (hK0 : 0 ≤ K) (hK1 : K < 2 ^ 31) (hN0 : 0 ≤ N) (hN1 : N < 2 ^ 31)
    (hG : 0 < group_size) :
    (∃ hp, out.scale_ = (normalize env scale false hp).1) ∧
    ∃ s0 s1, out.scale_.stride 0 = .ok s0 ∧ out.scale_.stride 1 = .ok s1 ∧
      out.scale_usr_md.dims = [K / group_size, N] ∧
      out.scale_usr_md.strides = [s1, s0] ∧
      (group_size ∣ K → out.scale_usr_md.dims.getD 0 0 * group_size = K) := by
  obtain ⟨hk, hn⟩ := woq_matmul_int4_k_n h hK hN hK0 hK1 hN0 hN1
  obtain ⟨-, -, -, -, hnorm, -, -, -, -, -, -, ⟨s1, s0, hs1, hs0, hmd⟩, -⟩ :=
    woq_matmul_int4_ok_inv h
  refine ⟨hnorm, s0, s1, hs0, hs1, ?_⟩
  rw [hmd, hk, hn, quotient_conversions hK0 hK1 hG]
  refine ⟨rfl, rfl, ?_⟩
  intro hdvd
  exact Int.ediv_mul_cancel hdvd

/-- The in-range statement at the scenario `K = 16`, `G = 8`: the leading dimension is 2,
and `2 * 8 = 16`. -/
theorem scale_user_desc_witness :
    ∃ out, scenario = .ok out ∧
      ((∃ hp, out.scale_ = (normalize (sample_env 64) (tensor2 2 1 .BFloat16 3) false hp).1) ∧
      ∃ s0 s1, out.scale_.stride 0 = .ok s0 ∧ out.scale_.stride 1 = .ok s1 ∧
        out.scale_usr_md.dims = [2, 1] ∧
        out.scale_usr_md.strides = [s1, s0] ∧
        ((8 : Int) ∣ 16 → out.scale_usr_md.dims.getD 0 0 * 8 = 16)) := by
  obtain ⟨out, hout⟩ : ∃ out, scenario = .ok out := ⟨_, rfl⟩
  exact ⟨out, hout, scale_user_desc (sample_env 64) (tensor2 1 1 .BFloat16 0)
    (tensor2 1 16 .BFloat16 1) (tensor2 2 1 .Int 2) (tensor2 2 1 .BFloat16 3)
    (tensor2 1 1 .Char 4) 8 no_attr [] out 16 1 hout
    (by rfl) (by rfl) (by decide) (by decide) (by decide) (by decide) (by decide)⟩

/-! ## Packed weight: compute view -/

/-- Weight compute view within the range of `int`: in every returning call with
reduction size `K` and output width `N` (both in the range of `int`, the type
of the locals `k` and `n`), the weight
descriptor handed to the plan constructor and the memory bound to the WEIGHTS
role of the submitted primitive both declare dimensions `(K, N)` with element
type `u4`, and that memory has the buffer pointer of the packed user-layout
weight memory, which is the buffer of the normalized weight `m2`. -/
theorem weight_compute_view (env : Env) (result mat1_ mat2_ scale zp : Tensor)
    (group_size : Int) (attr : Attr) (deps : List sycl_event) (out : Out) (K N : Int)
    (h : woq_matmul_int4 env result mat1_ mat2_ scale zp group_size attr deps = .ok out)
    (hK : mat1_.size (-1) = .ok K) (hN : result.size (-1) = .ok N)
    (hK0 : 0 ≤ K) (hK1 : K < 2 ^ 31) (hN0 : 0 ≤ N) (hN1 : N < 2 ^ 31) :
    env.create_primitive_desc out.matmul_pd.problem = .ok out.matmul_pd.scratchpad_size ∧
    out.matmul_pd.problem.weights_md.dims = [K, N] ∧
    out.matmul_pd.problem.weights_md.dtype = .u4 ∧
    (∃ pre, out.trace = pre ++ [.execute out.args deps]) ∧
    (∃ w, out.args.lookup .WEIGHTS = some w ∧
      w.desc = out.matmul_pd.problem.weights_md ∧
      w.handle = out.m2_usr_m.handle ∧ w.handle = out.m2.data_ptr) ∧
    (∃ hp, out.m2 = (normalize env mat2_ false hp).1) := by
  obtain ⟨hk, hn⟩ := woq_matmul_int4_k_n h hK hN hK0 hK1 hN0 hN1
  obtain ⟨-, -, -, hm2, -, -, -, -, -, -, -, -, -, -, husr, hu4, hw, hpd, hargs, htrace⟩ :=
    woq_matmul_int4_ok_inv h
  refine ⟨hpd, ?_, ?_, htrace, ⟨_, hargs, hw.symm, ?_, ?_⟩, hm2⟩
  · rw [hw, hu4, hk, hn]
    rfl
  · rw [hw, hu4]
    rfl
  · rw [hu4]
  · rw [hu4, husr]

/-- The in-range statement at the scenario `K = 16`, `N = 1`, where the weight lives in the
caller's buffer 2. -/
theorem weight_compute_view_witness :
    ∃ out, scenario = .ok out ∧
      (sample_env 64).create_primitive_desc out.matmul_pd.problem =
        .ok out.matmul_pd.scratchpad_size ∧
      out.matmul_pd.problem.weights_md.dims = [16, 1] ∧
      out.matmul_pd.problem.weights_md.dtype = .u4 ∧
      (∃ pre, out.trace = pre ++ [.execute out.args []]) ∧
      (∃ w, out.args.lookup .WEIGHTS = some w ∧
        w.desc = out.matmul_pd.problem.weights_md ∧
        w.handle = out.m2_usr_m.handle ∧ w.handle = out.m2.data_ptr) ∧
      (∃ hp, out.m2 = (normalize (sample_env 64) (tensor2 2 1 .Int 2) false hp).1) := by
  obtain ⟨out, hout⟩ : ∃ out, scenario = .ok out := ⟨_, rfl⟩
  exact ⟨out, hout, weight_compute_view (sample_env 64) (tensor2 1 1 .BFloat16 0)
    (tensor2 1 16 .BFloat16 1) (tensor2 2 1 .Int 2) (tensor2 2 1 .BFloat16 3)
    (tensor2 1 1 .Char 4) 8 no_attr [] out 16 1 hout
    (by rfl) (by rfl) (by decide) (by decide) (by decide) (by decide)⟩

/-! ## The two views of the weight buffer -/

/-- For a 2-D destination the user descriptor of a returning call has dimensions
`(M, N)` and the row and column strides of the normalized destination `dst`, and
the compute descriptor equals it. -/
theorem dst_user_desc_of_2d_destination (env : Env) (result mat1_ mat2_ scale zp : Tensor)
    (group_size : Int) (attr : Attr) (deps : List sycl_event) (out : Out) (M N : Int)
    (h : woq_matmul_int4 env result mat1_ mat2_ scale zp group_size attr deps = .ok out)
    (h2 : result.dim = 2)
    (hM : mat1_.size (-2) = .ok M) (hN : result.size (-1) = .ok N)
    (hM0 : 0 ≤ M) (hM1 : M < 2 ^ 31) (hN0 : 0 ≤ N) (hN1 : N < 2 ^ 31) :
    ∃ sr sc, out.dst.stride (-2) = .ok sr ∧ out.dst.stride (-1) = .ok sc ∧
      out.dst_usr_md.dims = [M, N] ∧ out.dst_usr_md.strides = [sr, sc] ∧
      out.dst_md = out.dst_usr_md := by
  obtain ⟨-, -, ⟨hp1, hm1⟩, -, -, -, ⟨hp5, hdst⟩, ⟨m_, hm_, hm⟩, ⟨n_, hn_, hn⟩, -, -, -,
    ⟨d0, d1, hd0, hd1, hmd⟩, hcomp, -⟩ := woq_matmul_int4_ok_inv h
  rw [hm1, normalize_size, hM] at hm_
  rw [hdst, normalize_size, hN] at hn_
  cases hm_
  cases hn_
  have hdim : out.dst.dim = 2 := by
    rw [hdst]
    unfold Tensor.dim
    rw [normalize_sizes]
    exact h2
  have hr : out.dst.stride (-2) = out.dst.stride 0 := by
    unfold Tensor.stride maybe_wrap_dim
    rw [hdim]
    rfl
  have hc : out.dst.stride (-1) = out.dst.stride 1 := by
    unfold Tensor.stride maybe_wrap_dim
    rw [hdim]
    rfl
  refine ⟨d0, d1, hr.trans hd0, hc.trans hd1, ?_, ?_, hcomp⟩
  · rw [hmd, hm, hn, to_int_of_range hM0 hM1, to_int_of_range hN0 hN1]
  · rw [hmd]

/-! ## Evaluations at explicit inputs -/

/-- C3, at a 3-D destination: the contiguous destination of shape `(1, 4, 3)` is
accepted and kept as it is; it stores its rows with stride 3 and its columns
with stride 1, but the user descriptor `(4, 3)` gets the strides `(12, 3)`
of dimensions 0 and 1 (batch and row); the compute descriptor is the same. -/
theorem dst_desc_of_3d_destination :
    ∃ out, woq_matmul_int4 (sample_env 64) dst_3d (tensor2 4 16 .BFloat16 1)
        (tensor2 2 3 .Int 2) (tensor2 2 3 .BFloat16 3) (tensor2 1 1 .Char 4)
        8 no_attr [] = .ok out ∧
      out.dst = dst_3d ∧
      out.dst.stride (-2) = .ok 3 ∧ out.dst.stride (-1) = .ok 1 ∧
      out.dst_usr_md.dims = [4, 3] ∧ out.dst_usr_md.strides = [12, 3] ∧
      out.dst_md = out.dst_usr_md :=
  ⟨_, rfl, rfl, rfl, rfl, rfl, rfl, rfl⟩

/-- C4, at a reduction size beyond `int`: the activation has `K = 2 ^ 32 + 16`
columns, so `K / 8 = 2 ^ 29 + 2`, but the local `k` is 16 and the packed-weight
user descriptor gets dimensions `(2, 3)` and strides `(1, 2)`. -/
theorem packed_weight_desc_of_wide_activation :
    ∃ out, wide_call = .ok out ∧
      wide_activation.size (-1) = .ok (2 ^ 32 + 16) ∧
      ((2 ^ 32 + 16 : Int) / 8 = 2 ^ 29 + 2) ∧
      out.k = 16 ∧ out.n = 3 ∧
      out.m2_usr_md.dims = [2, 3] ∧ out.m2_usr_md.strides = [1, 2] :=
  ⟨_, rfl, rfl, by decide, rfl, rfl, rfl, rfl⟩

/-- C5, at a reduction size beyond `int`: with `K = 2 ^ 32 + 16` and `G = 8` the
group count is `K / G = 2 ^ 29 + 2`, but the scale user descriptor gets
dimensions `(2, 3)`; its strides `(1, 3)` are the strides `(3, 1)` of the
normalized scale, swapped. -/
theorem scale_desc_of_wide_activation :
    ∃ out, wide_call = .ok out ∧
      wide_activation.size (-1) = .ok (2 ^ 32 + 16) ∧
      ((2 ^ 32 + 16 : Int) / 8 = 2 ^ 29 + 2) ∧
      out.scale_.sizes = [2 ^ 29 + 2, 3] ∧ out.scale_.strides = [3, 1] ∧
      out.scale_usr_md.dims = [2, 3] ∧ out.scale_usr_md.strides = [1, 3] :=
  ⟨_, rfl, rfl, by decide, rfl, rfl, rfl, rfl⟩

/-- C6, at a reduction size beyond `int`: with `K = 2 ^ 32 + 16` and `N = 3` the
plan is constructed from, and the WEIGHTS role is bound to, a u4 view of
dimensions `(16, 3)`; the view does share the buffer of the packed weight (the
caller's buffer 2). -/
theorem weight_view_of_wide_activation :
    ∃ out, wide_call = .ok out ∧
      wide_activation.size (-1) = .ok (2 ^ 32 + 16) ∧
      out.matmul_pd.problem.weights_md = ⟨[16, 3], .u4, [1, 16]⟩ ∧
      out.args.lookup .WEIGHTS = some ⟨⟨[16, 3], .u4, [1, 16]⟩, .caller 2⟩ ∧
      out.m2_usr_m.handle = .caller 2 ∧ out.m2.data_ptr = .caller 2 :=
  ⟨_, rfl, rfl, rfl, rfl, rfl, rfl⟩

/-- C7, at a plan that reports `2 ^ 32 + 64` bytes: the size passes through `int`,
the scratch tensor that is allocated has 64 bytes, and it is bound to the
SCRATCHPAD role under the descriptor of `2 ^ 32 + 64` bytes. -/
theorem scratchpad_of_large_plan :
    ∃ out, woq_matmul_int4 (sample_env (2 ^ 32 + 64)) (tensor2 1 1 .BFloat16 0)
        (tensor2 1 16 .BFloat16 1) (tensor2 2 1 .Int 2) (tensor2 2 1 .BFloat16 3)
        (tensor2 1 1 .Char 4) 8 no_attr [] = .ok out ∧
      out.matmul_pd.scratchpad_size = 2 ^ 32 + 64 ∧
      out.scratchpad_tensor.sizes = [64] ∧
      out.trace = [.empty 64 (.allocated 0), .execute out.args []] ∧
      out.args.lookup .SCRATCHPAD = some ⟨⟨[2 ^ 32 + 64], .u8, [1]⟩, .allocated 0⟩ :=
  ⟨_, rfl, rfl, rfl, rfl, rfl⟩

/-- C8, at a scale and a zero-point that normalization copies: the copies live in
the new buffers 0 and 1 and the scale descriptor records the strides of the
copy, but the scale and zero-point memory handles point at the caller's buffers
3 and 4. -/
theorem handles_of_copied_scale_and_zp :
    ∃ out, woq_matmul_int4 (sample_env 64) (tensor2 1 4 .BFloat16 0)
        (tensor2 1 16 .BFloat16 1) (tensor2 2 4 .Int 2) strided_scale strided_zp
        8 no_attr [] = .ok out ∧
      out.scale_.data_ptr = .allocated 0 ∧ out.scale_.strides = [4, 1] ∧
      out.scale_usr_md.strides = [1, 4] ∧
      out.scale_usr_m = ⟨out.scale_usr_md, .caller 3⟩ ∧
      out.zp_.data_ptr = .allocated 1 ∧
      out.zp_usr_m = ⟨out.zp_usr_md, .caller 4⟩ ∧
      out.args.lookup .ATTR_SCALES_WEIGHTS = some out.scale_usr_m ∧
      out.args.lookup .ATTR_ZERO_POINTS_WEIGHTS = some out.zp_usr_m :=
  ⟨_, rfl, rfl, rfl, rfl, rfl, rfl, rfl, rfl, rfl⟩

/-- C9, at a column-major destination: normalization copies the caller's buffer 0
into the new buffer 0, the DST role of the submitted primitive is bound to the
copy, and the call ends with the submission: nothing is written back. -/
theorem dst_of_column_major_destination :
    ∃ out, woq_matmul_int4 (sample_env 64) transposed_dst (tensor2 2 16 .BFloat16 1)
        (tensor2 2 4 .Int 2) (tensor2 2 4 .BFloat16 3) (tensor2 1 1 .Char 4)
        8 no_attr [] = .ok out ∧
      transposed_dst.data_ptr = .caller 0 ∧
      out.dst.data_ptr = .allocated 0 ∧
      out.args.lookup .DST = some ⟨out.dst_usr_md, .allocated 0⟩ ∧
      out.trace = [.contiguous_copy (.caller 0) (.allocated 0),
        .empty 64 (.allocated 1), .execute out.args []] :=
  ⟨_, rfl, rfl, rfl, rfl, rfl⟩

end WoQMatmul
